import Mathlib

/-!
# Verification of the social-stream scheduled publish dispatcher

Shallow embedding of the scheduled multi-platform publish dispatcher of the
social-stream backend, together with the OAuth-callback deduplication guard
and the account-link storage helper, and proofs of the specified properties.

Sources embedded:
* `src/services/scheduler.service.js` — `processScheduledPost`,
  `checkScheduledPosts`;
* `src/controllers/social.controller.js` — `saveAccountToStorage`,
  `facebookCallback` / `instagramCallback` (identical guard logic);
* `src/models/Post.model.js` and the user model (`connectedAccountSchema`) —
  record shapes and enum constraints.

External collaborators (MongoDB, the Facebook / Instagram / Pinterest HTTP
services, the process environment, wall-clock time) are modelled as explicit
oracle environments; each network call records an `AdapterCall` so that
"the adapter was (not) invoked" is a provable statement.  Timestamps are
milliseconds as `Nat`, matching `Date.now()` / `setTimeout` units.
-/

namespace SocialStream

/-- The platforms a connected account may belong to.
`connectedAccountSchema.platform` has `enum: ['facebook','instagram','pinterest']`. -/
inductive SocialPlatform where
  | facebook
  | instagram
  | pinterest
  deriving DecidableEq, Repr

/-- The platform names allowed in a post.
`Post.model.js`: `platforms` has `enum: ['twitter','facebook','instagram','pinterest','linkedin']`
and the scalar `platform` field additionally allows `'all'`.  We use one type
for both; `all` never occurs in the `platforms` array but is skipped by the
dispatcher anyway (`if (platformName === 'all') continue`). -/
inductive PlatformName where
  | twitter
  | facebook
  | instagram
  | pinterest
  | linkedin
  | all
  deriving DecidableEq, Repr

/-- The case-insensitive match `acc.platform.toLowerCase() === platformName.toLowerCase()`
of `scheduler.service.js:36`: both enums store canonical lowercase names, so the
match is name equality; post platform names outside the connected-account enum
can never match. -/
def PlatformName.toSocial : PlatformName → Option SocialPlatform
  | .facebook => some .facebook
  | .instagram => some .instagram
  | .pinterest => some .pinterest
  | _ => none

/-- Post status, per `Post.model.js` (`enum: ['draft','scheduled','published','failed']`). -/
inductive PostStatus where
  | draft
  | scheduled
  | published
  | failed
  deriving DecidableEq, Repr

/-- A connected social account, per `connectedAccountSchema` in the user model.
The `metadata` string map (stringified boards/pages cache) is elided: no
claim touches it and its content is opaque JSON. -/
structure ConnectedAccount where
  platform : SocialPlatform
  accountId : String
  accountName : String
  profileImage : Option String
  accessToken : String
  refreshToken : Option String
  expiresAt : Option Nat
  isActive : Bool
  connectedAt : Nat
  pageId : Option String
  pageAccessToken : Option String
  businessAccountId : Option String
  deriving DecidableEq, Repr

/-- A user record, restricted to the fields the dispatcher and the account-link
helper read (`_id`, `firebaseUid`, `connectedAccounts`). -/
structure User where
  id : String
  firebaseUid : Option String
  connectedAccounts : List ConnectedAccount
  deriving DecidableEq, Repr

/-- A post (job) record, per `Post.model.js`.  `platforms` is `none` when the
array field is absent on the document (then the scheduler falls back to
`[post.platform]`, scheduler.service.js:29); a present-but-empty array is
`some []`, matching JavaScript truthiness of `[]`. -/
structure Post where
  id : String
  user : String
  content : String
  mediaUrls : List String
  platforms : Option (List PlatformName)
  platform : PlatformName
  scheduledDate : Option Nat
  status : PostStatus
  deriving DecidableEq, Repr

/-- `const platforms = post.platforms || [post.platform]` (scheduler.service.js:29). -/
def Post.platformList (post : Post) : List PlatformName :=
  match post.platforms with
  | some l => l
  | none => [post.platform]

/-- `post.mediaUrls?.[0]` (scheduler.service.js:49). -/
def Post.mediaUrl (post : Post) : Option String :=
  post.mediaUrls.head?

/-- JavaScript `String.prototype.includes`: `splitOn` yields more than one
piece exactly when the (nonempty) pattern occurs in the string. -/
def strIncludes (s pat : String) : Bool :=
  (s.splitOn pat).length != 1

/-- A Facebook page as returned by `facebookService.getUserPages`. -/
structure FbPage where
  pageId : String
  pageAccessToken : String
  tasks : Option (List String)
  deriving DecidableEq, Repr

/-- One recorded external (network) call of a platform adapter. -/
inductive AdapterCall where
  | fbGetUserPages (accessToken : String)
  | fbPostToPage (pageAccessToken pageId message : String) (photoUrl : Option String)
  | igPublishVideo (igUserId accessToken : String) (videoUrl : Option String) (caption : String)
  | igPublishPhoto (igUserId accessToken : String) (imageUrl : Option String) (caption : String)
  | pinCreatePin (accessToken boardId title description : String) (imageUrl : Option String)
  deriving DecidableEq, Repr

/-- Oracle environment for the platform services and the process environment.
Each service call either returns a value or throws (modelled as `Except`);
the dispatcher treats them as opaque remote calls. -/
structure DispatchEnv where
  fbGetUserPages : String → Except String (List FbPage)
  fbPostToPage : String → String → String → Option String → Except String String
  igPublishVideo : String → String → Option String → String → Except String String
  igPublishPhoto : String → String → Option String → String → Except String String
  pinCreatePin : String → String → String → String → Option String → Except String String
  pinterestBoardId : Option String

/-- The `try { switch (platformName.toLowerCase()) ... }` body of
`processScheduledPost` (scheduler.service.js:47-133) for one platform with a
connected account, returning the thrown-or-returned result together with the
external calls made.  Only `facebook`, `instagram`, `pinterest` reach the
switch: the account lookup can only succeed for those (enum constraint). -/
def attemptPublish (env : DispatchEnv) (post : Post) (acct : ConnectedAccount) :
    SocialPlatform → Except String String × List AdapterCall
  | .facebook =>
    match env.fbGetUserPages acct.accessToken with
    | .error e => (.error e, [.fbGetUserPages acct.accessToken])
    | .ok pages =>
      match pages with
      | [] => (.error "No Facebook pages available", [.fbGetUserPages acct.accessToken])
      | first :: _ =>
        let page := (pages.find? fun p => (p.tasks.getD []).contains "CREATE_CONTENT").getD first
        (env.fbPostToPage page.pageAccessToken page.pageId post.content post.mediaUrl,
          [.fbGetUserPages acct.accessToken,
            .fbPostToPage page.pageAccessToken page.pageId post.content post.mediaUrl])
  | .instagram =>
    match acct.businessAccountId with
    | none => (.error "Instagram Business account not linked", [])
    | some igUserId =>
      let accessToken := acct.pageAccessToken.getD acct.accessToken
      let isVideo :=
        match post.mediaUrl with
        | none => false
        | some u => strIncludes u ".mp4" || strIncludes u ".mov" || strIncludes u ".avi"
      if isVideo then
        (env.igPublishVideo igUserId accessToken post.mediaUrl post.content,
          [.igPublishVideo igUserId accessToken post.mediaUrl post.content])
      else
        (env.igPublishPhoto igUserId accessToken post.mediaUrl post.content,
          [.igPublishPhoto igUserId accessToken post.mediaUrl post.content])
  | .pinterest =>
    let isVideoForPinterest :=
      match post.mediaUrl with
      | none => false
      | some u =>
        strIncludes u ".mp4" || strIncludes u ".mov" || strIncludes u ".avi" ||
          strIncludes u "video"
    if isVideoForPinterest then
      (.error "Pinterest only supports image pins. Videos are not supported.", [])
    else
      match env.pinterestBoardId with
      | none => (.error "PINTEREST_BOARD_ID not configured in environment variables", [])
      | some boardId =>
        let title := (post.content.toList.take 100).asString
        (env.pinCreatePin acct.accessToken boardId title post.content post.mediaUrl,
          [.pinCreatePin acct.accessToken boardId title post.content post.mediaUrl])

deriving instance DecidableEq for Except

/-- Outcome of one iteration of the per-platform loop. -/
inductive StepResult where
  | skipped
  | notConnected
  | attempted (r : Except String String)
  deriving DecidableEq, Repr

/-- One iteration of the `for (const platformName of platforms)` loop
(scheduler.service.js:32-148): skip `'all'`; look up an active connected
account matching the platform name; if none, record the
"Account not connected or inactive" error; otherwise run the publish attempt.
The lookup reads only `platform` and `isActive` — `expiresAt` is not consulted. -/
def dispatchStep (env : DispatchEnv) (user : User) (post : Post) (pn : PlatformName) :
    StepResult × List AdapterCall :=
  if pn = .all then (.skipped, [])
  else
    match pn.toSocial with
    | none => (.notConnected, [])
    | some sp =>
      match user.connectedAccounts.find? fun a => a.platform == sp && a.isActive with
      | none => (.notConnected, [])
      | some acct =>
        let (r, calls) := attemptPublish env post acct sp
        (.attempted r, calls)

/-- Accumulated loop state: the `results` and `errors` arrays and the
external calls performed, in loop order. -/
structure ProcessResult where
  results : List (PlatformName × String)
  errors : List (PlatformName × String)
  calls : List AdapterCall
  deriving DecidableEq, Repr

/-- The whole per-platform loop over a list of platform names. -/
def processPlatformList (env : DispatchEnv) (user : User) (post : Post) :
    List PlatformName → ProcessResult
  | [] => ⟨[], [], []⟩
  | pn :: rest =>
    let (st, calls) := dispatchStep env user post pn
    let tail := processPlatformList env user post rest
    match st with
    | .skipped => ⟨tail.results, tail.errors, calls ++ tail.calls⟩
    | .notConnected =>
      ⟨tail.results, (pn, "Account not connected or inactive") :: tail.errors,
        calls ++ tail.calls⟩
    | .attempted (.ok r) => ⟨(pn, r) :: tail.results, tail.errors, calls ++ tail.calls⟩
    | .attempted (.error e) =>
      ⟨tail.results, (pn, e) :: tail.errors, calls ++ tail.calls⟩

/-- The per-platform loop of `processScheduledPost` on the post's platforms. -/
def processPlatforms (env : DispatchEnv) (user : User) (post : Post) : ProcessResult :=
  processPlatformList env user post post.platformList

/-- Whether the loop iteration for `pn` pushes a success entry into `results`. -/
def stepOk (env : DispatchEnv) (user : User) (post : Post) (pn : PlatformName) : Bool :=
  match dispatchStep env user post pn with
  | (.attempted (.ok _), _) => true
  | _ => false

/-- Environment of `processScheduledPost`: the user lookup and whether each of
the two possible `post.save()` calls (the normal one at scheduler.service.js:152
and the one in the catch handler at line 160) would succeed. -/
structure SchedulerEnv where
  findUser : String → Option User
  dispatch : DispatchEnv
  firstSaveOk : Bool
  secondSaveOk : Bool

/-- Result of `processScheduledPost`: the record written to the job store by a
successful `post.save()` (`none` when no save succeeded, leaving the stored
document unchanged), and the in-memory loop result (`none` when the function
returned before the loop ran). -/
structure ProcessOutcome where
  persisted : Option Post
  proc : Option ProcessResult
  deriving DecidableEq, Repr

/-- `processScheduledPost` (scheduler.service.js:16-162): look up the user
(early return when absent, no store write); run the per-platform loop; set
`post.status = results.length > 0 ? 'published' : 'failed'` and save.  A save
failure lands in the catch handler, which sets `post.status = 'failed'` and
saves again; if that save also fails the store keeps the original document. -/
def processScheduledPost (env : SchedulerEnv) (post : Post) : ProcessOutcome :=
  match env.findUser post.user with
  | none => ⟨none, none⟩
  | some user =>
    let pr := processPlatforms env.dispatch user post
    let newStatus : PostStatus := if pr.results.length > 0 then .published else .failed
    if env.firstSaveOk then ⟨some { post with status := newStatus }, some pr⟩
    else if env.secondSaveOk then ⟨some { post with status := .failed }, some pr⟩
    else ⟨none, some pr⟩

/-- The `scheduledDate: { $lte: now }` condition: a document with no
`scheduledDate` does not match `$lte`. -/
def Post.dueBy (post : Post) (now : Nat) : Bool :=
  match post.scheduledDate with
  | some d => d ≤ now
  | none => false

/-- The query of `checkScheduledPosts` (scheduler.service.js:172-175):
`Post.find({ status: 'scheduled', scheduledDate: { $lte: now } }).limit(10)`.
There is no sort clause: documents come back in store (natural) order, and at
most 10 of them.  The query performs no update. -/
def selectDuePosts (store : List Post) (now : Nat) : List Post :=
  ((store.filter fun p => p.status == .scheduled && p.dueBy now).take 10)

/-- The selection phase of one `checkScheduledPosts` tick as a store
transition: the batch it returns, and the store as the query leaves it.  The
source performs a plain `find` with no conditional update, so the store is
returned unchanged — no job is transitioned out of `scheduled` by selection. -/
def checkScheduledPostsSelect (store : List Post) (now : Nat) :
    List Post × List Post :=
  (selectDuePosts store now, store)

/-! ## Account linking and OAuth-callback deduplication
(`src/controllers/social.controller.js`) -/

/-- The account data returned by a platform service's `completeOAuthFlow`,
restricted to the fields `saveAccountToStorage` reads.  The `metadata` map
(stringified `longLivedToken`/`boards`/`pages`) is elided as opaque JSON. -/
structure AccountData where
  platform : SocialPlatform
  accountId : String
  accountName : String
  profileImage : Option String
  accessToken : String
  refreshToken : Option String
  expiresAt : Option Nat
  connectedAt : Nat
  pages : List FbPage
  pageAccessToken : Option String
  igId : Option String
  deriving DecidableEq, Repr

/-- The connected-account entry pushed by `saveAccountToStorage`
(social.controller.js:62-81).  `pageAccessToken` is
`accountData.pages?.[0]?.pageAccessToken || accountData.pageAccessToken`. -/
def accountFromData (d : AccountData) : ConnectedAccount :=
  { platform := d.platform
    accountId := d.accountId
    accountName := d.accountName
    profileImage := d.profileImage
    accessToken := d.accessToken
    refreshToken := d.refreshToken
    expiresAt := d.expiresAt
    isActive := true
    connectedAt := d.connectedAt
    pageId := d.pages.head?.map (·.pageId)
    pageAccessToken :=
      match d.pages.head? with
      | some pg => some pg.pageAccessToken
      | none => d.pageAccessToken
    businessAccountId := d.igId }

/-- `saveAccountToStorage` (social.controller.js:51-103): find the user (throw
`'User not found'` if absent), drop every existing connection whose `platform`
equals the `platform` argument, push the new connection built from
`accountData`, and save.  The first user whose id matches is updated (MongoDB
`_id` lookup); the optional Firestore mirror write is non-critical (its errors
are swallowed) and carries no state read back by this subsystem, so it is not
modelled. -/
def saveAccountToStorage (users : List User) (userId : String)
    (platform : SocialPlatform) (accountData : AccountData) :
    Except String (List User) :=
  match users.find? fun u => u.id == userId with
  | none => .error "User not found"
  | some user =>
    let updated :=
      { user with
        connectedAccounts :=
          (user.connectedAccounts.filter fun acc => acc.platform != platform) ++
            [accountFromData accountData] }
    .ok (users.map fun u => if u.id == userId then updated else u)

/-- The per-platform `global.processed<Platform>Codes` set together with the
pending `setTimeout` deletions: each entry is an authorization code and the
time it was added; the timer removes it 5 minutes (300000 ms) later. -/
structure GuardState where
  entries : List (String × Nat)
  deriving DecidableEq, Repr

/-- Five minutes in milliseconds (`5 * 60 * 1000`, social.controller.js:463). -/
def retentionWindow : Nat := 300000

/-- Whether `code` is in the processed-codes set at time `now`: it was added at
some `t` and the deletion timer (`t + 300000`) has not yet fired. -/
def GuardState.hasCode (g : GuardState) (code : String) (now : Nat) : Bool :=
  g.entries.any fun e => e.1 == code && now < e.2 + retentionWindow

/-- The state decoded from the OAuth `state` query parameter. -/
structure StateData where
  userId : String
  platform : String
  timestamp : Nat
  deriving DecidableEq, Repr

/-- The request query of an OAuth callback. -/
structure CallbackQuery where
  code : Option String
  state : Option String
  error : Option String
  errorDescription : Option String
  deriving DecidableEq, Repr

/-- Oracles for one OAuth callback: `decodeState` (`none` when
`JSON.parse`/base64 decoding throws) and the platform service's
`completeOAuthFlow` (token exchange plus profile fetch). -/
structure CallbackEnv where
  decodeState : String → Option StateData
  completeOAuthFlow : String → Except String AccountData

/-- The externally observable response of a callback. -/
inductive CallbackResponse where
  | oauthError (msg : String)
  | badRequest (msg : String)
  | alreadyProcessed
  | connected (accountName : String)
  | serverError (msg : String)
  deriving DecidableEq, Repr

/-- Result of one OAuth callback: the response, the processed-codes set after
the call, the user store after the call, and the account-link write performed
(`none` when no write happened). -/
structure CallbackResult where
  response : CallbackResponse
  guard : GuardState
  users : List User
  savedWrite : Option (String × AccountData)
  deriving Repr

/-- The OAuth callback handler shared verbatim (up to platform name) by
`facebookCallback` (social.controller.js:421-515) and `instagramCallback`
(social.controller.js:603-690): reject OAuth errors and missing `code`/`state`;
decode the state; if the code is already in the processed set, answer
"Already connected" without any write; otherwise record the code (with its
5-minute deletion timer), run `completeOAuthFlow`, and save the account via
`saveAccountToStorage`.  Any throw after the code was recorded lands in the
outer catch (a 500 response) with no account write.  The `User.findById` for
`firebaseUid` only feeds the non-modelled Firestore mirror. -/
def handleOAuthCallback (platform : SocialPlatform) (env : CallbackEnv)
    (users : List User) (g : GuardState) (now : Nat) (q : CallbackQuery) :
    CallbackResult :=
  match q.error with
  | some e => ⟨.oauthError (q.errorDescription.getD e), g, users, none⟩
  | none =>
    match q.code with
    | none => ⟨.badRequest "Authorization code not received", g, users, none⟩
    | some code =>
      match q.state with
      | none => ⟨.badRequest "State parameter missing", g, users, none⟩
      | some st =>
        match env.decodeState st with
        | none => ⟨.serverError "Invalid state parameter", g, users, none⟩
        | some sd =>
          if g.hasCode code now then ⟨.alreadyProcessed, g, users, none⟩
          else
            let g' : GuardState := ⟨g.entries ++ [(code, now)]⟩
            match env.completeOAuthFlow code with
            | .error e => ⟨.serverError e, g', users, none⟩
            | .ok accountData =>
              match saveAccountToStorage users sd.userId platform accountData with
              | .error e => ⟨.serverError e, g', users, none⟩
              | .ok users' =>
                ⟨.connected accountData.accountName, g', users',
                  some (sd.userId, accountData)⟩

/-- `facebookCallback`, as an instance of the shared handler shape with the
`global.processedFacebookCodes` guard state. -/
def facebookCallback (env : CallbackEnv) (users : List User) (g : GuardState)
    (now : Nat) (q : CallbackQuery) : CallbackResult :=
  handleOAuthCallback .facebook env users g now q

/-- `instagramCallback`, as an instance of the shared handler shape with the
`global.processedInstagramCodes` guard state. -/
def instagramCallback (env : CallbackEnv) (users : List User) (g : GuardState)
    (now : Nat) (q : CallbackQuery) : CallbackResult :=
  handleOAuthCallback .instagram env users g now q

/-! ## The spec-side batch ordering property -/

/-- The ordering the spec claims of a selected batch: due times ascending
(oldest due first).  Stated from the spec's words for comparison with
`selectDuePosts`, whose source query has no sort clause. -/
def dueAscending (l : List Post) : Prop :=
  l.Pairwise fun a b => a.scheduledDate.getD 0 ≤ b.scheduledDate.getD 0

/-! ## Concrete fixtures for witnesses and counterexamples -/

/-- A Facebook connection whose credential is already past `expiresAt`
(`some 0`) but still marked active. -/
def fbAccount : ConnectedAccount :=
  { platform := .facebook, accountId := "fb-acc", accountName := "FB Account",
    profileImage := none, accessToken := "fb-token", refreshToken := none,
    expiresAt := some 0, isActive := true, connectedAt := 0,
    pageId := none, pageAccessToken := none, businessAccountId := none }

/-- An active Instagram business connection. -/
def igAccount : ConnectedAccount :=
  { platform := .instagram, accountId := "ig-acc", accountName := "IG Account",
    profileImage := none, accessToken := "ig-token", refreshToken := none,
    expiresAt := none, isActive := true, connectedAt := 0,
    pageId := none, pageAccessToken := none, businessAccountId := some "ig-user-1" }

/-- A user with Facebook and Instagram connected. -/
def demoUser : User := ⟨"u1", none, [fbAccount, igAccount]⟩

/-- A user with no connected accounts. -/
def bareUser : User := ⟨"u2", none, []⟩

/-- A due scheduled post targeting Facebook only. -/
def fbPost : Post :=
  { id := "p1", user := "u1", content := "hello", mediaUrls := [],
    platforms := some [.facebook], platform := .all,
    scheduledDate := some 3, status := .scheduled }

/-- A due scheduled post targeting Facebook and Instagram. -/
def duoPost : Post :=
  { fbPost with id := "p2", platforms := some [.facebook, .instagram] }

/-- Adapter oracle in which every platform call succeeds. -/
def allOkDispatch : DispatchEnv :=
  { fbGetUserPages := fun _ => .ok [⟨"page-1", "page-token", some ["CREATE_CONTENT"]⟩]
    fbPostToPage := fun _ _ _ _ => .ok "fb-post-1"
    igPublishVideo := fun _ _ _ _ => .ok "ig-video-1"
    igPublishPhoto := fun _ _ _ _ => .ok "ig-photo-1"
    pinCreatePin := fun _ _ _ _ _ => .ok "pin-1"
    pinterestBoardId := some "board-1" }

/-- Same oracle, except the Instagram photo publish fails remotely. -/
def igFailDispatch : DispatchEnv :=
  { allOkDispatch with igPublishPhoto := fun _ _ _ _ => .error "ig down" }

/-- User-store lookup knowing only `demoUser`. -/
def demoLookup : String → Option User :=
  fun uid => if uid == "u1" then some demoUser else none

/-- Scheduler environment: user found, adapters succeed, saves succeed. -/
def schedEnvOk : SchedulerEnv := ⟨demoLookup, allOkDispatch, true, true⟩

/-- Scheduler environment in which the Instagram publish fails. -/
def schedEnvIgFail : SchedulerEnv := ⟨demoLookup, igFailDispatch, true, true⟩

/-- Scheduler environment in which the first `post.save()` throws but the
retry in the catch handler succeeds. -/
def schedEnvSaveFail : SchedulerEnv := ⟨demoLookup, allOkDispatch, false, true⟩

/-- Scheduler environment in which the user lookup finds nobody. -/
def schedEnvNoUser : SchedulerEnv := ⟨fun _ => none, allOkDispatch, true, true⟩

/-- Stored first (natural order), due at 10. -/
def firstStoredPost : Post := { fbPost with id := "pa", scheduledDate := some 10 }

/-- Stored second (natural order), due at 5 — older due time than
`firstStoredPost` yet behind it in store order. -/
def secondStoredPost : Post := { fbPost with id := "pb", scheduledDate := some 5 }

/-- Account data as returned by a successful Facebook OAuth flow. -/
def demoAccountData : AccountData :=
  { platform := .facebook, accountId := "fb-acc-2", accountName := "FB Account 2",
    profileImage := none, accessToken := "fb-token-2", refreshToken := none,
    expiresAt := some 99, connectedAt := 7, pages := [], pageAccessToken := none,
    igId := none }

/-- Callback oracle: one valid state blob, one valid authorization code. -/
def demoCallbackEnv : CallbackEnv :=
  { decodeState := fun s => if s == "state-1" then some ⟨"u1", "facebook", 0⟩ else none
    completeOAuthFlow := fun c => if c == "code-1" then .ok demoAccountData else .error "bad code" }

/-- The request query of a valid callback arrival. -/
def demoQuery : CallbackQuery := ⟨some "code-1", some "state-1", none, none⟩

/-- The user store before the account-link write. -/
def demoUsers : List User := [demoUser]

/-- The user store after the account-link write for `demoAccountData`: the
old Facebook connection is dropped, the new one appended after Instagram. -/
def demoUsersSaved : List User :=
  [{ demoUser with connectedAccounts := [igAccount, accountFromData demoAccountData] }]

/-! ## Structural lemmas about the per-platform loop -/

theorem dispatchStep_all (env : DispatchEnv) (user : User) (post : Post) :
    dispatchStep env user post .all = (.skipped, []) := rfl

theorem dispatchStep_not_skipped (env : DispatchEnv) (user : User) (post : Post)
    (pn : PlatformName) (hpn : pn ≠ .all) :
    (dispatchStep env user post pn).1 ≠ .skipped := by
  unfold dispatchStep
  rw [if_neg hpn]
  cases hts : pn.toSocial with
  | none => simp
  | some sp =>
    cases hfind : user.connectedAccounts.find? fun a => a.platform == sp && a.isActive with
    | none => simp [hfind]
    | some acct => simp [hfind]

/-- The loop produces a success entry for some listed platform exactly when
its `results` array ends up non-empty. -/
theorem processPlatformList_results_pos_iff (env : DispatchEnv) (u : User) (post : Post) :
    ∀ l : List PlatformName,
      0 < (processPlatformList env u post l).results.length ↔
        l.any (stepOk env u post) = true
  | [] => by simp [processPlatformList]
  | pn :: rest => by
    have ih := processPlatformList_results_pos_iff env u post rest
    rcases hd : dispatchStep env u post pn with ⟨st, calls⟩
    cases st with
    | skipped => simpa [processPlatformList, hd, stepOk] using ih
    | notConnected => simpa [processPlatformList, hd, stepOk] using ih
    | attempted r =>
      cases r with
      | ok v => simp [processPlatformList, hd, stepOk]
      | error e => simpa [processPlatformList, hd, stepOk] using ih

/-- Every listed platform other than `'all'` contributes exactly one entry to
`results ++ errors`: a failure never aborts the loop. -/
theorem processPlatformList_outcome_count (env : DispatchEnv) (u : User) (post : Post) :
    ∀ l : List PlatformName,
      (processPlatformList env u post l).results.length +
          (processPlatformList env u post l).errors.length =
        (l.filter fun pn => pn != .all).length
  | [] => by simp [processPlatformList]
  | pn :: rest => by
    have ih := processPlatformList_outcome_count env u post rest
    by_cases hall : pn = .all
    · subst hall
      simp [processPlatformList, dispatchStep_all, ih]
    · rcases hd : dispatchStep env u post pn with ⟨st, calls⟩
      cases st with
      | skipped =>
        exact absurd (by rw [hd] : (dispatchStep env u post pn).1 = .skipped)
          (dispatchStep_not_skipped env u post pn hall)
      | notConnected =>
        simp [processPlatformList, hd, hall, ih]
        omega
      | attempted r =>
        cases r with
        | ok v => simp [processPlatformList, hd, hall, ih]; omega
        | error e => simp [processPlatformList, hd, hall, ih]; omega

/-- Every listed platform other than `'all'` appears among the platforms of
`results` or of `errors`. -/
theorem processPlatformList_mem_outcome (env : DispatchEnv) (u : User) (post : Post) :
    ∀ l : List PlatformName, ∀ pn ∈ l, pn ≠ .all →
      pn ∈ (processPlatformList env u post l).results.map Prod.fst ∨
        pn ∈ (processPlatformList env u post l).errors.map Prod.fst
  | [], pn, h, _ => absurd h (List.not_mem_nil pn)
  | q :: rest, pn, h, hpn => by
    rcases List.mem_cons.mp h with heq | htail
    · subst heq
      rcases hd : dispatchStep env u post pn with ⟨st, calls⟩
      cases st with
      | skipped =>
        exact absurd (by rw [hd] : (dispatchStep env u post pn).1 = .skipped)
          (dispatchStep_not_skipped env u post pn hpn)
      | notConnected => right; simp [processPlatformList, hd]
      | attempted r =>
        cases r with
        | ok v => left; simp [processPlatformList, hd]
        | error e => right; simp [processPlatformList, hd]
    · have ih := processPlatformList_mem_outcome env u post rest pn htail hpn
      rcases hd : dispatchStep env u post q with ⟨st, calls⟩
      cases st with
      | skipped => simpa [processPlatformList, hd] using ih
      | notConnected =>
        rcases ih with ih | ih
        · left; simpa [processPlatformList, hd] using ih
        · right; simp [processPlatformList, hd, ih]
      | attempted r =>
        cases r with
        | ok v =>
          rcases ih with ih | ih
          · left; simp [processPlatformList, hd, ih]
          · right; simpa [processPlatformList, hd] using ih
        | error e =>
          rcases ih with ih | ih
          · left; simpa [processPlatformList, hd] using ih
          · right; simp [processPlatformList, hd, ih]

/-! ## Claim theorems -/

/-- C1: for every claimed job the dispatcher processes (user found, result
write succeeds), the terminal status written to the job store is `published`
if at least one targeted platform's publish attempt succeeded, and `failed`
exactly when no targeted platform's attempt succeeded — including the case of
zero platforms eligible for dispatch, where `List.any` over the targets is
`false` and the status is `failed`. -/
theorem terminal_status_published_iff_any_success (env : SchedulerEnv) (post : Post)
    (u : User) (hu : env.findUser post.user = some u) (hsave : env.firstSaveOk = true) :
    (processScheduledPost env post).persisted =
      some { post with status :=
        if post.platformList.any (stepOk env.dispatch u post) then .published
        else .failed } := by
  have h := processPlatformList_results_pos_iff env.dispatch u post post.platformList
  by_cases hA : post.platformList.any (stepOk env.dispatch u post) = true
  · simp [processScheduledPost, hu, hsave, processPlatforms, h.mpr hA, hA]
  · have hz : ¬ 0 < (processPlatformList env.dispatch u post post.platformList).results.length :=
      fun hp => hA (h.mp hp)
    simp [processScheduledPost, hu, hsave, processPlatforms, hz, hA]

/-- Witness for C1 at a concrete input: `demoUser` is found, the save
succeeds, and the Facebook attempt succeeds, so the persisted status is
`published`. -/
theorem terminal_status_witness :
    schedEnvOk.findUser fbPost.user = some demoUser ∧
    schedEnvOk.firstSaveOk = true ∧
    (processScheduledPost schedEnvOk fbPost).persisted =
      some { fbPost with status :=
        if fbPost.platformList.any (stepOk schedEnvOk.dispatch demoUser fbPost) then
          .published
        else .failed } :=
  ⟨by decide, by decide,
    terminal_status_published_iff_any_success schedEnvOk fbPost demoUser
      (by decide) (by decide)⟩

/-- C2, counterexample: the selection query is not an atomic claim.  A first
selection pass returns the due scheduled job `fbPost` and leaves the store
unchanged (the source runs a plain `find`, with no `Pending -> Claimed`
conditional update), so a second overlapping pass over the store as the first
pass left it returns the very same job, which is moreover still `scheduled`:
two overlapping ticks both obtain the job. -/
theorem selector_double_return_cx :
    (checkScheduledPostsSelect [fbPost] 5).1 = [fbPost] ∧
    (checkScheduledPostsSelect (checkScheduledPostsSelect [fbPost] 5).2 5).1 = [fbPost] ∧
    fbPost.status = .scheduled := by decide

/-- C2, amended: the job selector performs no status transition at all — the
store is unchanged by selection, so two overlapping selection passes can both
return the same due `scheduled` job.  What does hold is the claim's second
half: a job whose status has left `scheduled` (set terminal by processing) is
never returned by any selection pass. -/
theorem selector_no_claim_amended (store : List Post) (now : Nat) (j : Post) :
    (checkScheduledPostsSelect store now).2 = store ∧
    (j.status ≠ .scheduled → j ∉ (checkScheduledPostsSelect store now).1) := by
  refine ⟨rfl, fun hj hmem => ?_⟩
  have hmem' : j ∈ store.filter fun p => p.status == .scheduled && p.dueBy now :=
    List.mem_of_mem_take hmem
  have hpred := (List.mem_filter.mp hmem').2
  rw [Bool.and_eq_true, beq_iff_eq] at hpred
  exact hj hpred.1

/-- Witness for C2's amended statement: a `published` job in the store is not
returned by selection, and the store is unchanged. -/
theorem selector_no_claim_witness :
    ({ fbPost with status := .published } : Post).status ≠ .scheduled ∧
    (checkScheduledPostsSelect [{ fbPost with status := .published }] 5).2 =
      [{ fbPost with status := .published }] ∧
    { fbPost with status := .published } ∉
      (checkScheduledPostsSelect [{ fbPost with status := .published }] 5).1 :=
  ⟨by decide,
    (selector_no_claim_amended [{ fbPost with status := .published }] 5
      { fbPost with status := .published }).1,
    (selector_no_claim_amended [{ fbPost with status := .published }] 5
      { fbPost with status := .published }).2 (by decide)⟩

/-- C3: a failure of one targeted platform never aborts the job or skips the
remaining platforms: for every job, user and assignment of per-platform
adapter outcomes, every targeted platform (every listed name other than the
skipped literal `'all'`) receives exactly one outcome — the entry counts of
`results` and `errors` add up to the number of targeted platforms, and each
targeted platform appears in one of the two arrays. -/
theorem no_early_exit_all_platforms_reported (env : DispatchEnv) (u : User) (post : Post) :
    ((processPlatforms env u post).results.length +
        (processPlatforms env u post).errors.length =
      (post.platformList.filter fun pn => pn != .all).length) ∧
    (∀ pn ∈ post.platformList, pn ≠ .all →
      pn ∈ (processPlatforms env u post).results.map Prod.fst ∨
        pn ∈ (processPlatforms env u post).errors.map Prod.fst) :=
  ⟨processPlatformList_outcome_count env u post post.platformList,
    fun pn h hpn => processPlatformList_mem_outcome env u post post.platformList pn h hpn⟩

/-- Witness for C3 at a concrete input: with the Instagram publish failing,
both targeted platforms of `duoPost` still receive an outcome. -/
theorem no_early_exit_witness :
    ((PlatformName.instagram ∈ duoPost.platformList) ∧
      (PlatformName.instagram ≠ PlatformName.all)) ∧
    ((processPlatforms igFailDispatch demoUser duoPost).results.length +
        (processPlatforms igFailDispatch demoUser duoPost).errors.length =
      (duoPost.platformList.filter fun pn => pn != .all).length) ∧
    (PlatformName.instagram ∈
        (processPlatforms igFailDispatch demoUser duoPost).results.map Prod.fst ∨
      PlatformName.instagram ∈
        (processPlatforms igFailDispatch demoUser duoPost).errors.map Prod.fst) :=
  ⟨⟨by decide, by decide⟩,
    (no_early_exit_all_platforms_reported igFailDispatch demoUser duoPost).1,
    (no_early_exit_all_platforms_reported igFailDispatch demoUser duoPost).2
      .instagram (by decide) (by decide)⟩

/-- C4, counterexample: the dispatcher does not consult `expiresAt`.
`fbAccount` is present and active but past its expiry (`expiresAt = some 0`),
yet the loop iteration for Facebook invokes the platform adapter (two external
calls are made) and records a success — not an auth-expired failure without an
external call as the claim requires. -/
theorem expired_credential_adapter_called_cx :
    fbAccount.isActive = true ∧ fbAccount.expiresAt = some 0 ∧
    dispatchStep allOkDispatch demoUser fbPost .facebook =
      (.attempted (.ok "fb-post-1"),
        [.fbGetUserPages "fb-token",
          .fbPostToPage "page-token" "page-1" "hello" none]) ∧
    (dispatchStep allOkDispatch demoUser fbPost .facebook).2 ≠ [] := by decide

/-- C4, amended: for every targeted platform whose owner credential is absent
or inactive, the dispatcher records the platform-level failure
`"Account not connected or inactive"` without invoking any platform adapter
(no external call), and the remaining platforms still receive their own
outcomes; the credential's `expiresAt` is not consulted, so an expired but
active credential is still sent to the adapter. -/
theorem missing_or_inactive_credential_amended (env : DispatchEnv) (u : User)
    (post : Post) (pn : PlatformName) (rest : List PlatformName) (hpn : pn ≠ .all)
    (hcred : ∀ sp, pn.toSocial = some sp →
      ∀ acct ∈ u.connectedAccounts, acct.platform = sp → acct.isActive = false) :
    dispatchStep env u post pn = (.notConnected, []) ∧
    processPlatformList env u post (pn :: rest) =
      ⟨(processPlatformList env u post rest).results,
        (pn, "Account not connected or inactive") ::
          (processPlatformList env u post rest).errors,
        (processPlatformList env u post rest).calls⟩ := by
  have hstep : dispatchStep env u post pn = (.notConnected, []) := by
    unfold dispatchStep
    rw [if_neg hpn]
    cases hts : pn.toSocial with
    | none => rfl
    | some sp =>
      have hfind : (u.connectedAccounts.find? fun a => a.platform == sp && a.isActive)
          = none := by
        rw [List.find?_eq_none]
        intro acct hacct
        by_cases hp : acct.platform = sp
        · simp [hp, hcred sp hts acct hacct hp]
        · simp [hp]
      simp [hfind]
  exact ⟨hstep, by simp [processPlatformList, hstep]⟩

/-- Witness for C4's amended statement: `bareUser` has no credentials at all,
so the Facebook iteration records the not-connected failure with no external
call, and the following Instagram iteration is still processed. -/
theorem missing_credential_witness :
    ((PlatformName.facebook ≠ PlatformName.all) ∧
      (∀ sp, PlatformName.facebook.toSocial = some sp →
        ∀ acct ∈ bareUser.connectedAccounts, acct.platform = sp →
          acct.isActive = false)) ∧
    (dispatchStep allOkDispatch bareUser fbPost .facebook = (.notConnected, []) ∧
      processPlatformList allOkDispatch bareUser fbPost [.facebook, .instagram] =
        ⟨(processPlatformList allOkDispatch bareUser fbPost [.instagram]).results,
          (.facebook, "Account not connected or inactive") ::
            (processPlatformList allOkDispatch bareUser fbPost [.instagram]).errors,
          (processPlatformList allOkDispatch bareUser fbPost [.instagram]).calls⟩) :=
  ⟨⟨by decide, fun sp _ acct hacct _ => absurd hacct (by simp [bareUser])⟩,
    missing_or_inactive_credential_amended allOkDispatch bareUser fbPost .facebook
      [.instagram] (by decide)
      (fun sp _ acct hacct _ => absurd hacct (by simp [bareUser]))⟩

/-- C6, counterexample: a store failure during result persistence does not
leave the job recoverable.  With identical platform outcomes (the Facebook
publish succeeded), a run whose first `post.save()` succeeds persists
`published`, while a run whose first save throws lands in the catch handler,
which overwrites the status and persists `failed` — the job is marked `failed`
as a consequence of the store failure, and not left as it was. -/
theorem store_failure_marks_failed_cx :
    (processScheduledPost schedEnvOk fbPost).persisted =
      some { fbPost with status := .published } ∧
    (processScheduledPost schedEnvSaveFail fbPost).persisted =
      some { fbPost with status := .failed } := by decide

/-- C6, amended: if the first result save fails, the catch handler overwrites
the status to `failed` and retries the save once; if the retry succeeds the
job is persisted as `failed` regardless of the platform outcomes, and only if
the retry also fails is no write performed, leaving the stored job in its
pre-dispatch `scheduled` status.  The job is never marked `published` as a
consequence of a store failure. -/
theorem store_failure_amended (env : SchedulerEnv) (post : Post) (u : User)
    (hu : env.findUser post.user = some u) (hfail : env.firstSaveOk = false) :
    (processScheduledPost env post).persisted =
      (if env.secondSaveOk then some { post with status := .failed } else none) := by
  by_cases hs : env.secondSaveOk
  · simp [processScheduledPost, hu, hfail, hs]
  · simp [processScheduledPost, hu, hfail, hs]

/-- Witness for C6's amended statement at a concrete input. -/
theorem store_failure_witness :
    schedEnvSaveFail.findUser fbPost.user = some demoUser ∧
    schedEnvSaveFail.firstSaveOk = false ∧
    (processScheduledPost schedEnvSaveFail fbPost).persisted =
      (if schedEnvSaveFail.secondSaveOk then some { fbPost with status := .failed }
       else none) :=
  ⟨by decide, by decide,
    store_failure_amended schedEnvSaveFail fbPost demoUser (by decide) (by decide)⟩

/-- C7, counterexample: the selection query has no sort clause.  With two due
scheduled jobs stored in natural order `[due 10, due 5]`, the returned batch
is `[due 10, due 5]` — store order — which is not ordered by due time
ascending. -/
theorem selector_unsorted_cx :
    selectDuePosts [firstStoredPost, secondStoredPost] 20 =
      [firstStoredPost, secondStoredPost] ∧
    ¬ dueAscending (selectDuePosts [firstStoredPost, secondStoredPost] 20) := by
  refine ⟨by decide, fun h => ?_⟩
  have h10 : firstStoredPost.scheduledDate.getD 0 ≤ secondStoredPost.scheduledDate.getD 0 := by
    simpa [show selectDuePosts [firstStoredPost, secondStoredPost] 20 =
      [firstStoredPost, secondStoredPost] from by decide, dueAscending] using h
  simp [firstStoredPost, secondStoredPost, fbPost] at h10

/-- C7, amended: every batch returned by the job selector contains only jobs
with status `scheduled` and due time at or before now, and contains at most
10 jobs; the batch preserves store (natural) order — it is a sublist of the
store — rather than being ordered by due time ascending. -/
theorem selector_batch_amended (store : List Post) (now : Nat) :
    (∀ j ∈ selectDuePosts store now, j.status = .scheduled ∧ j.dueBy now = true) ∧
    (selectDuePosts store now).length ≤ 10 ∧
    (selectDuePosts store now).Sublist store := by
  refine ⟨fun j hj => ?_, ?_, ?_⟩
  · have hj' : j ∈ store.filter fun p => p.status == .scheduled && p.dueBy now :=
      List.mem_of_mem_take hj
    have hpred := (List.mem_filter.mp hj').2
    rw [Bool.and_eq_true, beq_iff_eq] at hpred
    exact hpred
  · simp [selectDuePosts, List.length_take]
  · exact (List.take_sublist _ _).trans (List.filter_sublist _)

/-- Witness for C7's amended statement at a concrete store. -/
theorem selector_batch_witness :
    (fbPost ∈ selectDuePosts [fbPost] 5) ∧
    (fbPost.status = .scheduled ∧ fbPost.dueBy 5 = true) ∧
    (selectDuePosts [fbPost] 5).length ≤ 10 ∧
    (selectDuePosts [fbPost] 5).Sublist [fbPost] :=
  ⟨by decide, (selector_batch_amended [fbPost] 5).1 fbPost (by decide),
    (selector_batch_amended [fbPost] 5).2.1, (selector_batch_amended [fbPost] 5).2.2⟩

/-- C8, counterexample: the persisted job record contains no per-platform
result entries.  Two runs of the same two-platform job that differ in the
Instagram outcome (success in one, remote failure in the other) persist the
identical record, even though their in-memory per-platform outcomes differ —
so the persisted record cannot contain an entry for every targeted platform.
(The `Post` schema has no `perPlatformResult` field; only `status` is set
before `post.save()`.) -/
theorem per_platform_result_not_persisted_cx :
    (processScheduledPost schedEnvOk duoPost).persisted =
      (processScheduledPost schedEnvIgFail duoPost).persisted ∧
    (processScheduledPost schedEnvOk duoPost).proc ≠
      (processScheduledPost schedEnvIgFail duoPost).proc := by decide

/-- C8, amended: after dispatch of a claimed job completes (user found, first
save succeeds), the single record persisted to the job store is the original
job with only its `status` field replaced by the terminal status; the
per-platform outcomes — exactly one per targeted platform — exist only in the
in-memory `results`/`errors` arrays and are not part of the persisted
record. -/
theorem only_status_persisted_amended (env : SchedulerEnv) (post : Post) (u : User)
    (hu : env.findUser post.user = some u) (hsave : env.firstSaveOk = true) :
    (∃ st, (processScheduledPost env post).persisted = some { post with status := st }) ∧
    (processScheduledPost env post).proc = some (processPlatforms env.dispatch u post) ∧
    ((processPlatforms env.dispatch u post).results.length +
        (processPlatforms env.dispatch u post).errors.length =
      (post.platformList.filter fun pn => pn != .all).length) := by
  refine ⟨?_, ?_, processPlatformList_outcome_count env.dispatch u post post.platformList⟩
  · by_cases h : 0 < (processPlatforms env.dispatch u post).results.length
    · exact ⟨.published, by simp [processScheduledPost, hu, hsave, h]⟩
    · exact ⟨.failed, by simp [processScheduledPost, hu, hsave, h]⟩
  · simp [processScheduledPost, hu, hsave]

/-- Witness for C8's amended statement at a concrete input. -/
theorem only_status_persisted_witness :
    schedEnvIgFail.findUser duoPost.user = some demoUser ∧
    schedEnvIgFail.firstSaveOk = true ∧
    ((∃ st, (processScheduledPost schedEnvIgFail duoPost).persisted =
        some { duoPost with status := st }) ∧
      (processScheduledPost schedEnvIgFail duoPost).proc =
        some (processPlatforms schedEnvIgFail.dispatch demoUser duoPost) ∧
      ((processPlatforms schedEnvIgFail.dispatch demoUser duoPost).results.length +
          (processPlatforms schedEnvIgFail.dispatch demoUser duoPost).errors.length =
        (duoPost.platformList.filter fun pn => pn != .all).length)) :=
  ⟨by decide, by decide,
    only_status_persisted_amended schedEnvIgFail duoPost demoUser (by decide) (by decide)⟩

/-- C9: when the owning user record of a due job cannot be found at dispatch
time, `processScheduledPost` returns without any store write and without
running the loop — the stored job keeps its `scheduled` status — and a
`scheduled`, due job is returned again by the selection of every subsequent
tick (here: a store holding the job), so this path never produces a terminal
status. -/
theorem missing_user_job_unchanged (env : SchedulerEnv) (post : Post)
    (hu : env.findUser post.user = none) :
    processScheduledPost env post = ⟨none, none⟩ ∧
    (∀ now, post.status = .scheduled → post.dueBy now = true →
      selectDuePosts [post] now = [post]) := by
  refine ⟨by simp [processScheduledPost, hu], fun now h1 h2 => ?_⟩
  simp [selectDuePosts, List.filter, h1, h2]

/-- Witness for C9 at a concrete input. -/
theorem missing_user_witness :
    schedEnvNoUser.findUser fbPost.user = none ∧
    (fbPost.status = .scheduled ∧ fbPost.dueBy 5 = true) ∧
    processScheduledPost schedEnvNoUser fbPost = ⟨none, none⟩ ∧
    selectDuePosts [fbPost] 5 = [fbPost] :=
  ⟨rfl, ⟨by decide, by decide⟩,
    (missing_user_job_unchanged schedEnvNoUser fbPost rfl).1,
    (missing_user_job_unchanged schedEnvNoUser fbPost rfl).2 5 (by decide) (by decide)⟩

/-- `find?` over the user store after replacing every record matching the id
by `updated` returns `updated`, provided some record matched before. -/
theorem find_after_replace (userId : String) (updated : User)
    (hid : (updated.id == userId) = true) :
    ∀ users : List User, (users.find? fun u => u.id == userId).isSome = true →
      ((users.map fun u => if u.id == userId then updated else u).find?
        fun u => u.id == userId) = some updated
  | [], h => by simp at h
  | u :: rest, h => by
    by_cases hu : (u.id == userId) = true
    · simp [List.find?, hu, hid]
    · have h' : (rest.find? fun u => u.id == userId).isSome = true := by
        simpa [List.find?, hu] using h
      have ih := find_after_replace userId updated hid rest h'
      simpa [List.find?, hu] using ih

/-- C10: after every successful account-link save, the saved user's
`connectedAccounts` list contains exactly one — in particular at most one —
entry for the saved platform: `saveAccountToStorage` first removes every
existing entry for the platform and then appends the new one.  The hypothesis
`d.platform = platform` holds at every call site: each service's
`completeOAuthFlow` hard-codes the same platform literal the controller
passes. -/
theorem account_link_unique_per_platform (users : List User) (userId : String)
    (platform : SocialPlatform) (d : AccountData) (users' : List User)
    (hp : d.platform = platform)
    (hsave : saveAccountToStorage users userId platform d = .ok users') :
    ∃ u', (users'.find? fun u => u.id == userId) = some u' ∧
      u'.connectedAccounts.countP (fun a => a.platform == platform) = 1 := by
  cases hfind : users.find? fun u => u.id == userId with
  | none => simp [saveAccountToStorage, hfind] at hsave
  | some user0 =>
    simp only [saveAccountToStorage, hfind, Except.ok.injEq] at hsave
    have hid : (user0.id == userId) = true := by
      have hp0 := List.find?_some hfind
      simpa using hp0
    set updated : User :=
      { user0 with
        connectedAccounts :=
          (user0.connectedAccounts.filter fun acc => acc.platform != platform) ++
            [accountFromData d] } with hupd
    have hfound := find_after_replace userId updated hid users (by simp [hfind])
    refine ⟨updated, by rw [← hsave]; exact hfound, ?_⟩
    rw [hupd]
    simp only [List.countP_append]
    have hzero :
        (user0.connectedAccounts.filter fun acc => acc.platform != platform).countP
          (fun a => a.platform == platform) = 0 := by
      rw [List.countP_eq_zero]
      intro a ha
      have := (List.mem_filter.mp ha).2
      simpa using this
    have hone : List.countP (fun a => a.platform == platform) [accountFromData d] = 1 := by
      simp [accountFromData, hp]
    omega

/-- Witness for C10 at a concrete input: saving the new Facebook connection
into `demoUsers` (which already holds one Facebook and one Instagram
connection) leaves exactly one Facebook entry. -/
theorem account_link_unique_witness :
    demoAccountData.platform = SocialPlatform.facebook ∧
    saveAccountToStorage demoUsers "u1" .facebook demoAccountData = .ok demoUsersSaved ∧
    ∃ u', (demoUsersSaved.find? fun u => u.id == "u1") = some u' ∧
      u'.connectedAccounts.countP (fun a => a.platform == SocialPlatform.facebook) = 1 :=
  ⟨by decide, by decide,
    account_link_unique_per_platform demoUsers "u1" .facebook demoAccountData
      demoUsersSaved (by decide) (by decide)⟩

/-- C5: at-most-once processing of an OAuth-callback authorization code.  For
a valid callback (no OAuth error, code and state present and decodable, token
exchange and account save succeeding) whose code is not in the processed set:
the first arrival records the code and performs the account-link write; any
arrival of the same code while the 5-minute deletion timer is pending answers
"already processed" with no account-link write and no state change; and once
the retention window has elapsed the code is no longer in the set and the same
arrival is treated as newly seen again (a second account-link write is
performed). -/
theorem oauth_code_dedup (platform : SocialPlatform) (env : CallbackEnv)
    (users users' : List User) (g : GuardState) (q : CallbackQuery)
    (code st : String) (sd : StateData) (data : AccountData) (t0 : Nat)
    (hqe : q.error = none) (hqc : q.code = some code) (hqs : q.state = some st)
    (hdec : env.decodeState st = some sd)
    (hflow : env.completeOAuthFlow code = .ok data)
    (hsave : saveAccountToStorage users sd.userId platform data = .ok users')
    (hfresh : g.hasCode code t0 = false) :
    handleOAuthCallback platform env users g t0 q =
      ⟨.connected data.accountName, ⟨g.entries ++ [(code, t0)]⟩, users',
        some (sd.userId, data)⟩ ∧
    (∀ t1 otherUsers, t1 < t0 + retentionWindow →
      handleOAuthCallback platform env otherUsers ⟨g.entries ++ [(code, t0)]⟩ t1 q =
        ⟨.alreadyProcessed, ⟨g.entries ++ [(code, t0)]⟩, otherUsers, none⟩) ∧
    (∀ t2, t0 + retentionWindow ≤ t2 →
      GuardState.hasCode ⟨g.entries ++ [(code, t0)]⟩ code t2 = false ∧
      ∀ otherUsers otherUsers',
        saveAccountToStorage otherUsers sd.userId platform data = .ok otherUsers' →
        handleOAuthCallback platform env otherUsers ⟨g.entries ++ [(code, t0)]⟩ t2 q =
          ⟨.connected data.accountName,
            ⟨(g.entries ++ [(code, t0)]) ++ [(code, t2)]⟩, otherUsers',
            some (sd.userId, data)⟩) := by
  refine ⟨?_, ?_, ?_⟩
  · simp [handleOAuthCallback, hqe, hqc, hqs, hdec, hfresh, hflow, hsave]
  · intro t1 otherUsers ht1
    have hhit : GuardState.hasCode ⟨g.entries ++ [(code, t0)]⟩ code t1 = true := by
      simp [GuardState.hasCode, List.any_append, ht1]
    simp [handleOAuthCallback, hqe, hqc, hqs, hdec, hhit]
  · intro t2 ht2
    have hmiss : GuardState.hasCode ⟨g.entries ++ [(code, t0)]⟩ code t2 = false := by
      simp only [GuardState.hasCode, List.any_append, Bool.or_eq_false_iff]
      constructor
      · rw [List.any_eq_false]
        intro e he
        by_cases hc : (e.1 == code) = true
        · have hold : ¬ t0 < e.2 + retentionWindow := by
            simp only [GuardState.hasCode, List.any_eq_false] at hfresh
            have := hfresh e he
            simpa [hc] using this
          have : ¬ t2 < e.2 + retentionWindow := by omega
          simp [hc, this]
        · simp [hc]
      · have : ¬ t2 < t0 + retentionWindow := by omega
        simp [this]
    refine ⟨hmiss, fun otherUsers otherUsers' hsave' => ?_⟩
    simp [handleOAuthCallback, hqe, hqc, hqs, hdec, hmiss, hflow, hsave']

/-- Witness for C5 at a concrete input: code `"code-1"` arriving at time 0 on
an empty processed set is saved; the same code at time 200000 is reported as
already processed with no write; at time 300000 the code is gone and is saved
again. -/
theorem oauth_code_dedup_witness :
    (⟨[]⟩ : GuardState).hasCode "code-1" 0 = false ∧
    (handleOAuthCallback .facebook demoCallbackEnv demoUsers ⟨[]⟩ 0 demoQuery =
      ⟨.connected demoAccountData.accountName, ⟨[("code-1", 0)]⟩, demoUsersSaved,
        some ("u1", demoAccountData)⟩ ∧
    (∀ t1 otherUsers, t1 < 0 + retentionWindow →
      handleOAuthCallback .facebook demoCallbackEnv otherUsers ⟨[("code-1", 0)]⟩ t1 demoQuery =
        ⟨.alreadyProcessed, ⟨[("code-1", 0)]⟩, otherUsers, none⟩) ∧
    (∀ t2, 0 + retentionWindow ≤ t2 →
      GuardState.hasCode ⟨[("code-1", 0)]⟩ "code-1" t2 = false ∧
      ∀ otherUsers otherUsers',
        saveAccountToStorage otherUsers "u1" .facebook demoAccountData = .ok otherUsers' →
        handleOAuthCallback .facebook demoCallbackEnv otherUsers ⟨[("code-1", 0)]⟩ t2 demoQuery =
          ⟨.connected demoAccountData.accountName, ⟨[("code-1", 0), ("code-1", t2)]⟩,
            otherUsers', some ("u1", demoAccountData)⟩)) :=
  ⟨by decide,
    oauth_code_dedup .facebook demoCallbackEnv demoUsers demoUsersSaved ⟨[]⟩ demoQuery
      "code-1" "state-1" ⟨"u1", "facebook", 0⟩ demoAccountData 0
      (by decide) (by decide) (by decide) (by decide) (by decide) (by decide) (by decide)⟩

end SocialStream
